import Mathlib

/-!
Verification development for the VendorIQ compliance-review server
(two Express server variants: `src/server.js` and `src/unnamed/part_001`,
plus the batch script `src/unnamed/part_000`).

The JavaScript code is shallowly embedded: strings are modelled as lists of
character codes (`List Nat`, via `Char.toNat`), the regular expressions of the
source are modelled as explicit backtracking matchers specialised to each
pattern, JS `number` arithmetic on scores is modelled over `ℚ`/`ℤ` with the
binary64 rounding of each operation made explicit (`fl`: round to 53
significant bits, ties to even; `Math.round` as `jsRound` on the exact value
of the double), and the external collaborators (LLM call,
`JSON.parse`, text extraction, storage row) are parameters of the handler
models.  Handler endpoints are modelled as pure functions from their inputs and
collaborator results to a `CheckResult`/`SessionResponse` record that also
records the observable effects (LLM invoked, row persisted, temp file
unlinked), one field per effect in the handler body.
-/

namespace VendorIQ

/-! ## Character codes and small scanning helpers -/

/-- Character codes of a string (`Char.toNat` of each character). -/
def strCodes (s : String) : List Nat := s.data.map Char.toNat

/-- Decode a list of character codes back to a string. -/
def decode (l : List Nat) : String := String.mk (l.map Char.ofNat)

/-- ASCII lower-casing of one character code (JS `toLowerCase`, restricted to
ASCII, which is all the source's patterns and the inputs in this file use). -/
def lowerCode (c : Nat) : Nat := if 65 ≤ c ∧ c ≤ 90 then c + 32 else c

/-- Digit character (JS regex `\d`). -/
def isDigitCode (c : Nat) : Bool := 48 ≤ c && c ≤ 57

/-- Word character (JS regex `\w` = `[A-Za-z0-9_]`). -/
def isWordCode (c : Nat) : Bool :=
  (97 ≤ c && c ≤ 122) || (65 ≤ c && c ≤ 90) || isDigitCode c || c == 95

/-- Whitespace (JS regex `\s` and `String.trim`; the ASCII part, which is all
that occurs in the documents and LLM replies considered here). -/
def isWsCode (c : Nat) : Bool := c == 32 || (9 ≤ c && c ≤ 13)

/-- `\s*`: greedily skip whitespace. -/
def dropWs (l : List Nat) : List Nat := l.dropWhile isWsCode

/-- Case-insensitive literal match: `stripCI pat l` consumes the pattern
`pat` (given in lower case) from the front of `l` case-insensitively and
returns the rest, or `none`. -/
def stripCI : List Nat → List Nat → Option (List Nat)
  | [], l => some l
  | _ :: _, [] => none
  | p :: ps, c :: cs => if lowerCode c = p then stripCI ps cs else none

/-- Case-sensitive literal match, returning the rest or `none`. -/
def stripLit : List Nat → List Nat → Option (List Nat)
  | [], l => some l
  | _ :: _, [] => none
  | p :: ps, c :: cs => if c = p then stripLit ps cs else none

/-- An optional literal character (a regex `x?`): consume it if present. -/
def chomp (ch : Nat) : List Nat → List Nat
  | [] => []
  | c :: cs => if c = ch then cs else c :: cs

/-- JS `String.trim` on character codes. -/
def jsTrim (l : List Nat) : List Nat :=
  ((l.dropWhile isWsCode).reverse.dropWhile isWsCode).reverse

/-- JS `text.split("\n")` on character codes (keeps empty segments). -/
def splitNl (l : List Nat) : List (List Nat) :=
  l.foldr
    (fun c acc =>
      match acc with
      | [] => [[c]]
      | a :: as => if c = 10 then [] :: a :: as else (c :: a) :: as)
    [[]]

/-- Does the pattern match at the head of the list? -/
def leadMatch : List Nat → List Nat → Bool
  | [], _ => true
  | _ :: _, [] => false
  | p :: ps, c :: cs => p == c && leadMatch ps cs

/-- JS `String.includes`: does the pattern occur contiguously anywhere? -/
def subMatch (needle : List Nat) : List Nat → Bool
  | [] => needle.isEmpty
  | c :: cs => leadMatch needle (c :: cs) || subMatch needle cs

/-- JS `s.split(" ")` on character codes (keeps empty segments). -/
def splitSp (l : List Nat) : List (List Nat) :=
  l.foldr
    (fun c acc =>
      match acc with
      | [] => [[c]]
      | a :: as => if c = 32 then [] :: a :: as else (c :: a) :: as)
    [[]]

/-! ## `extractAllScores` (src/unnamed/part_001, lines 383–394)

```js
function extractAllScores(feedbackText) {
  const scores = [];
  if (!feedbackText) return scores;
  const regex = /Score:\s*(?:\w+\s*)?\(?(\d{1,3})\/?5?\)?/gi;
  let match;
  while ((match = regex.exec(feedbackText))) {
    if (match[1]) scores.push(Number(match[1]));
  }
  return scores;
}
```

The regex is modelled by an explicit backtracking matcher.  `scoreMark` is the
literal `Score:` (matched case-insensitively); after it the matcher skips
`\s*`, then tries the optional greedy group `(?:\w+\s*)?` (longest `\w+`
first, then shorter, then the group skipped — exactly the JS backtracking
order), then `\(?`, then captures one to three digits greedily, then consumes
the optional `\/?5?\)?` tail.  `regex.exec` in a loop with the `g` flag finds
successive leftmost matches, each starting at or after the previous match's
end; `scanAux` models this (the fuel argument only bounds the recursion and is
always sufficient, see `scanScores`). -/

/-- Codes of the literal `score:` (lower case, for case-insensitive match). -/
def scoreMark : List Nat := strCodes "score:"

/-- `(\d{1,3})`: capture one to three digits greedily; returns the numeric
value (JS `Number`/`parseInt` of the captured digits) and the rest. -/
def digits3 : List Nat → Option (Nat × List Nat)
  | [] => none
  | c :: cs =>
    if isDigitCode c then
      some (match cs with
        | [] => (c - 48, ([] : List Nat))
        | c2 :: cs2 =>
          if isDigitCode c2 then
            match cs2 with
            | [] => (10 * (c - 48) + (c2 - 48), ([] : List Nat))
            | c3 :: cs3 =>
              if isDigitCode c3 then
                (100 * (c - 48) + 10 * (c2 - 48) + (c3 - 48), cs3)
              else
                (10 * (c - 48) + (c2 - 48), c3 :: cs3)
          else (c - 48, c2 :: cs2))
    else none

/-- `\(?(\d{1,3})\/?5?\)?`: the tail of the loose score pattern, applied after
the optional band word.  Returns the captured numeric value and the rest of
the input after the match.  The three trailing optional literals (`/`, `5`,
`)`) are consumed greedily; since they end the pattern no backtracking into
them can change the result. -/
def tryTail (l : List Nat) : Option (Nat × List Nat) :=
  match digits3 (chomp 40 l) with
  | some (v, rest) => some (v, chomp 41 (chomp 53 (chomp 47 rest)))
  | none => none

/-- The continuation of the greedy `\w+` of `(?:\w+\s*)?`: at least one word
character has already been consumed; try to extend the run (longest first) and
otherwise stop the run, apply `\s*`, and run the pattern tail. -/
def runCont : List Nat → Option (Nat × List Nat)
  | [] => tryTail []
  | c :: cs =>
    if isWordCode c then
      match runCont cs with
      | some r => some r
      | none => tryTail (c :: cs)
    else tryTail (dropWs (c :: cs))

/-- `(?:\w+\s*)?\(?(\d{1,3})\/?5?\)?`: the body of the loose score pattern
after `Score:\s*`, with the JS backtracking order (group present with the
longest `\w+` first, group absent last). -/
def matchBody (l : List Nat) : Option (Nat × List Nat) :=
  match l with
  | [] => tryTail []
  | c :: cs =>
    if isWordCode c then
      match runCont cs with
      | some r => some r
      | none => tryTail (c :: cs)
    else tryTail l

/-- Attempt the whole loose pattern at the current position. -/
def matchAt (l : List Nat) : Option (Nat × List Nat) :=
  match stripCI scoreMark l with
  | some rest => matchBody (dropWs rest)
  | none => none

/-- Whether the loose pattern's `Score:` marker starts here
(case-insensitively). -/
def scoreMarkAt (l : List Nat) : Bool := (stripCI scoreMark l).isSome

/-- The `regex.exec` loop: find successive leftmost matches, resuming after
each match's end.  `fuel` bounds the recursion; every step consumes at least
one character, so `fuel = length + 1` (see `scanScores`) is always enough. -/
def scanAux : Nat → List Nat → List Nat
  | 0, _ => []
  | _ + 1, [] => []
  | fuel + 1, c :: cs =>
    match matchAt (c :: cs) with
    | some (v, rest) => v :: scanAux fuel rest
    | none => scanAux fuel cs

/-- All values captured by the global loose-score regex, in document order. -/
def scanScores (l : List Nat) : List Nat := scanAux (l.length + 1) l

/-- `extractAllScores` of part_001.  The argument is `Option String` because
the stored `upload_feedback` column may be null (`if (!feedbackText) return
scores` also catches the empty string, which scans to `[]` anyway). -/
def extractAllScores (feedbackText : Option String) : List Nat :=
  match feedbackText with
  | none => []
  | some t => scanScores (strCodes t)

/-! ## Single-score extraction (`/api/check-file`, src/server.js lines
339–344 and src/unnamed/part_001 lines 359–364, identical in both)

```js
let score = null;
const match = feedback.match(
  /Score:\s*(Stretch|Commitment|Robust|Warning|Offtrack)\s*\((\d)\/5\)/i,
);
if (match) {
  score = parseInt(match[2], 10);
}
```

`String.match` without the `g` flag returns the leftmost match; the score is
`parseInt` of the second capture group — the digit, not the band name. -/

/-- The five compliance bands, in the order of the regex alternation. -/
inductive Band
  | stretch
  | commitment
  | robust
  | warning
  | offtrack
deriving DecidableEq

/-- Band name codes (lower case, matched case-insensitively). -/
def bandLit : Band → List Nat
  | .stretch => strCodes "stretch"
  | .commitment => strCodes "commitment"
  | .robust => strCodes "robust"
  | .warning => strCodes "warning"
  | .offtrack => strCodes "offtrack"

/-- Band name as written in the canonical reply format. -/
def bandName : Band → String
  | .stretch => "Stretch"
  | .commitment => "Commitment"
  | .robust => "Robust"
  | .warning => "Warning"
  | .offtrack => "Offtrack"

/-- The canonical weight of each band, as fixed by the scoring rubric embedded
in the check-file prompt of both server variants: stretch (5/5), commitment
(4/5), robust (3/5), warning (2/5), offtrack (1/5). -/
def bandWeight : Band → Nat
  | .stretch => 5
  | .commitment => 4
  | .robust => 3
  | .warning => 2
  | .offtrack => 1

/-- The regex alternation order `Stretch|Commitment|Robust|Warning|Offtrack`. -/
def bandOrder : List Band := [.stretch, .commitment, .robust, .warning, .offtrack]

/-- `\((\d)\/5\)`: exactly an opening parenthesis, one digit, `/5)`. -/
def singleTail : List Nat → Option Nat
  | a :: d :: b :: e :: f :: _ =>
    if a = 40 && isDigitCode d && b = 47 && e = 53 && f = 41 then some (d - 48) else none
  | _ => none

/-- Attempt the strict single-score pattern at the current position. -/
def singleAt (l : List Nat) : Option Nat :=
  match stripCI scoreMark l with
  | none => none
  | some r =>
    bandOrder.findSome? fun b =>
      match stripCI (bandLit b) (dropWs r) with
      | some r2 => singleTail (dropWs r2)
      | none => none

/-- Leftmost match of the strict single-score pattern (`String.match` without
the `g` flag). -/
def findSingle : List Nat → Option Nat
  | [] => none
  | c :: cs =>
    match singleAt (c :: cs) with
    | some v => some v
    | none => findSingle cs

/-- The score parsed from an LLM check-file reply: the digit of the leftmost
`Score: <Band> (<digit>/5)` occurrence, or `null` if none. -/
def extractSingleScore (s : String) : Option Nat := findSingle (strCodes s)

/-- The canonical reply format `Score: <BandName> (<digit>/5)`. -/
def singleReply (b : Band) (d : Nat) : String :=
  "Score: " ++ bandName b ++ " (" ++ decode [48 + d] ++ "/5)"

/-! ## Company-name normalization (src/unnamed/part_001, lines 234–240)

```js
function normalizeCompanyName(str) {
  return (str || "")
    .toLowerCase()
    .replace(/(private|pvt|limited|ltd|inc|corp|company|co|plc)/g, "")
    .replace(/[^a-z0-9]/g, "")
    .replace(/\s+/g, "");
}
```

The global replace scans left to right; at each position the alternatives are
tried in the written order and the first (not the longest) match is removed.
The second replace then removes every non-alphanumeric character, so the final
`\s+` replace is a no-op. -/

/-- Lower-case letter or digit. -/
def isLowerAlnum (c : Nat) : Bool := (97 ≤ c && c ≤ 122) || isDigitCode c

/-- The suffix-token alternation, in the order written in the source. -/
def companyTokens : List (List Nat) :=
  [strCodes "private", strCodes "pvt", strCodes "limited", strCodes "ltd",
   strCodes "inc", strCodes "corp", strCodes "company", strCodes "co",
   strCodes "plc"]

/-- Try the token alternation at the current position (input already
lower-cased; the regex has no `i` flag). -/
def companyTokenAt (l : List Nat) : Option (List Nat) :=
  companyTokens.findSome? fun tok => stripLit tok l

/-- The global token-removing replace.  `fuel` bounds the recursion; every
step consumes at least one character, so `length + 1` is always enough. -/
def stripTokensAux : Nat → List Nat → List Nat
  | 0, l => l
  | _ + 1, [] => []
  | fuel + 1, c :: cs =>
    match companyTokenAt (c :: cs) with
    | some rest => stripTokensAux fuel rest
    | none => c :: stripTokensAux fuel cs

/-- `normalizeCompanyName` on character codes. -/
def normCompany (l : List Nat) : List Nat :=
  (stripTokensAux (l.length + 1) (l.map lowerCode)).filter isLowerAlnum

/-- `normalizeCompanyName` of part_001. -/
def normalizeCompanyName (s : String) : List Nat := normCompany (strCodes s)

/-! ## Identity check, token-overlap variant (src/server.js, lines 241–268)

```js
const supplierName = data.supplier_name.trim().toLowerCase().replace(/[^a-z0-9 ]/gi, "");
const docTextNorm = text.toLowerCase().replace(/[^a-z0-9 ]/gi, "");
const supplierWords = supplierName.split(" ").filter((w) => w.length > 2);
let matchCount = 0;
supplierWords.forEach((word) => { if (docTextNorm.includes(word)) matchCount++; });
if (matchCount < Math.min(2, supplierWords.length)) { ...reject... }
```
-/

/-- `toLowerCase` followed by `replace(/[^a-z0-9 ]/gi, "")` (after the
lower-casing only lower-case letters, digits and spaces remain). -/
def serverNorm (l : List Nat) : List Nat :=
  (l.map lowerCode).filter fun c => isLowerAlnum c || c == 32

/-- The token-overlap identity check of src/server.js: true iff at least
`min(2, wordCount)` of the significant (length > 2) words of the registered
name occur as substrings of the normalized document text. -/
def serverTokenMatch (text supplierNameRaw : String) : Bool :=
  let supplierName := serverNorm (jsTrim (strCodes supplierNameRaw))
  let docTextNorm := serverNorm (strCodes text)
  let supplierWords := (splitSp supplierName).filter fun w => 2 < w.length
  let matchCount := supplierWords.countP fun w => subMatch w docTextNorm
  decide (min 2 supplierWords.length ≤ matchCount)

/-! ## Identity check, exact-normalized variant (src/unnamed/part_001,
lines 294–325)

```js
const lines = text.split("\n").map((l) => l.trim()).filter((l) => l.length > 4);
const candidateNames = lines.filter((l) =>
  l.toLowerCase().includes("metro") &&
  (l.toLowerCase().includes("telwork") || l.toLowerCase().includes("telworks")));
candidateNames.push(officialCompanyName);
const normalizedAuth = normalizeCompanyName(officialCompanyName);
const hasMatch = candidateNames.some((l) => normalizeCompanyName(l) === normalizedAuth);
```

`official` below is the already-trimmed registered name
(`data?.supplier_name?.trim()`). -/

/-- `hasMatch` of part_001's check-file handler. -/
def part001HasMatch (text official : String) : Bool :=
  let auth := jsTrim (strCodes official)
  let lines := ((splitNl (strCodes text)).map jsTrim).filter fun l => 4 < l.length
  let candidateNames := lines.filter fun l =>
    subMatch (strCodes "metro") (l.map lowerCode) &&
    (subMatch (strCodes "telwork") (l.map lowerCode) ||
      subMatch (strCodes "telworks") (l.map lowerCode))
  let candidateNames := candidateNames ++ [auth]
  candidateNames.any fun l => normCompany l == normCompany auth

/-! ## Company-name auto-extraction (src/server.js, lines 158–187)

```js
function extractCompanyName(text) {
  const lines = text.split("\n").map((l) => l.trim()).filter((l) => l.length > 2);
  for (const line of lines) {
    const match = line.match(/(?:company name|supplier)[:\-]\s*(.+)$/i);
    if (match && match[1]) return match[1].trim();
  }
  for (const line of lines) {
    if (/^(PT|CV|UD|PD|PERUSAHAAN|COMPANY|CORP|CORPORATION|INC|CO\.?|LTD|LLC|S\.A\.|Tbk)\s+[A-Z0-9 .,&()'"\-]{2,}$/i.test(line)) {
      return line;
    }
  }
  for (const line of lines) {
    if (line.split(" ").length >= 2 && /^[a-zA-Z\s.]+$/.test(line)) {
      return line;
    }
  }
  return lines[0] || "";
}
```
-/

/-- After `(?:company name|supplier)[:\-]`: apply `\s*(.+)$`.  `\s*` is greedy
but gives one space back when the rest would otherwise be empty (`.+` needs at
least one character); if nothing follows the separator at all there is no
match at this position. -/
def capRest (after : List Nat) : Option (List Nat) :=
  let m := (after.takeWhile isWsCode).length
  if after.length = 0 then none
  else if m = after.length then some (after.drop (m - 1))
  else some (after.drop m)

/-- Attempt `(?:company name|supplier)[:\-]\s*(.+)$` at the current
position. -/
def labelHere (l : List Nat) : Option (List Nat) :=
  let tail :=
    match stripCI (strCodes "company name") l with
    | some r => some r
    | none => stripCI (strCodes "supplier") l
  match tail with
  | some (c :: cs) => if c = 58 || c = 45 then capRest cs else none
  | _ => none

/-- Leftmost match of the label pattern in a line (unanchored search). -/
def labelCapture : List Nat → Option (List Nat)
  | [] => none
  | c :: cs =>
    match labelHere (c :: cs) with
    | some cap => some cap
    | none => labelCapture cs

/-- The legal-entity alternation of the second strategy, in written order
(`CO\.?` expands to `co.` tried before `co`). -/
def entityTokens : List (List Nat) :=
  [strCodes "pt", strCodes "cv", strCodes "ud", strCodes "pd",
   strCodes "perusahaan", strCodes "company", strCodes "corp",
   strCodes "corporation", strCodes "inc", strCodes "co.", strCodes "co",
   strCodes "ltd", strCodes "llc", strCodes "s.a.", strCodes "tbk"]

/-- Characters of the class `[A-Z0-9 .,&()'"\-]` under the `i` flag. -/
def isEntityBodyCode (c : Nat) : Bool :=
  (65 ≤ c && c ≤ 90) || (97 ≤ c && c ≤ 122) || isDigitCode c ||
  c == 32 || c == 46 || c == 44 || c == 38 || c == 40 || c == 41 ||
  c == 39 || c == 34 || c == 45

/-- `[A-Z0-9 .,&()'"\-]{2,}$` (with `i`): all remaining characters in the
class and at least two of them. -/
def entityBody (l : List Nat) : Bool := decide (2 ≤ l.length) && l.all isEntityBodyCode

/-- `\s+[A-Z0-9 .,&()'"\-]{2,}$` after the entity token: at least one
whitespace character, then (trying every split, as the backtracking between
the greedy `\s+` and the class — which contains the space — would) the body
to the end of the line. -/
def entityAfterWs : List Nat → Bool
  | [] => false
  | c :: cs => entityBody (c :: cs) || (isWsCode c && entityAfterWs cs)

/-- `^(...)\s+[A-Z0-9 .,&()'"\-]{2,}$` tested against a whole line. -/
def entityLine (l : List Nat) : Bool :=
  entityTokens.any fun tok =>
    match stripCI tok l with
    | some (c :: cs) => isWsCode c && entityAfterWs cs
    | _ => false

/-- `^[a-zA-Z\s.]+$`. -/
def isAlphaWsDot (c : Nat) : Bool :=
  (65 ≤ c && c ≤ 90) || (97 ≤ c && c ≤ 122) || isWsCode c || c == 46

/-- The third strategy: at least two space-separated segments and only
letters, whitespace and dots. -/
def alphaLine (l : List Nat) : Bool :=
  decide (2 ≤ (splitSp l).length) && decide (l ≠ []) && l.all isAlphaWsDot

/-- `extractCompanyName` on character codes. -/
def extractCompanyNameCodes (text : List Nat) : List Nat :=
  let lines := ((splitNl text).map jsTrim).filter fun l => 2 < l.length
  match lines.findSome? labelCapture with
  | some cap => jsTrim cap
  | none =>
    match lines.find? entityLine with
    | some l => l
    | none =>
      match lines.find? alphaLine with
      | some l => l
      | none => lines.headD []

/-- `extractCompanyName` of src/server.js. -/
def extractCompanyName (text : String) : String :=
  decode (extractCompanyNameCodes (strCodes text))

/-! ## The `/api/check-file` handlers

Both handlers are modelled as pure functions of the request and of the results
of their external collaborators: the uploaded file's presence, the parsed
question number (`none` models `parseInt` returning `NaN`), the
`supplier_names` row for the subject (`none` models no row), the text
extraction result (`Except`: `.error` models `extractText` throwing, caught by
the handler's `catch` block), and the LLM's reply text for this request
(`callGroq` is opaque text-out; `llmCalled` records whether the handler
reaches the call at all).  Each return statement of the source maps to one
`CheckResult`; the effect fields record, for that exit path, whether the LLM
was invoked, whether an `answers` row was upserted, whether the identity
comparison was executed, and whether `fs.unlinkSync` ran on the temp file. -/

/-- The distinct exit paths of a check-file handler. -/
inductive Outcome
  | noFile
  | invalidQuestion
  | noSupplierName
  | unreadable
  | nameConfirmation
  | identityMismatch
  | scored
  | serverError
deriving DecidableEq

/-- The observable result and effects of one check-file request. -/
structure CheckResult where
  outcome : Outcome
  success : Bool
  feedback : String
  requireCompanyNameConfirmation : Bool := false
  detectedCompanyName : Option String := none
  score : Option Nat := none
  llmCalled : Bool := false
  persisted : Bool := false
  identityChecked : Bool := false
  tempFileDeleted : Bool := false
deriving DecidableEq

/-- "Your document could not be read..." message (identical in both
variants). -/
def msgUnreadable : String :=
  "Your document could not be read. Please upload a clear, readable file (PDF, Word, or image) with visible content."

/-- Empty-or-whitespace test `!text || !text.trim()`. -/
def isBlankText (s : String) : Bool := (jsTrim (strCodes s)).isEmpty

/-- The `/api/check-file` handler of src/server.js (lines 190–361). -/
def serverCheckFile (hasFile : Bool) (qNum : Option Nat)
    (extractRes : Except String String) (record : Option String)
    (llmReply : String) : CheckResult :=
  if hasFile = false then
    { outcome := .noFile, success := false, feedback := "No file uploaded." }
  else
    match qNum with
    | none => { outcome := .invalidQuestion, success := false,
                feedback := "Invalid or missing question number." }
    | some q =>
      if q = 0 then
        { outcome := .invalidQuestion, success := false,
          feedback := "Invalid or missing question number." }
      else
        match extractRes with
        | .error e =>
          { outcome := .serverError, success := false, feedback := e }
        | .ok text =>
          if isBlankText text then
            { outcome := .unreadable, success := false, feedback := msgUnreadable,
              tempFileDeleted := true }
          else if q = 1 then
            let companyName := extractCompanyName text
            { outcome := .nameConfirmation, success := true,
              feedback := "Detected company name: \"" ++ companyName ++
                "\". Please confirm or correct this.",
              detectedCompanyName := some companyName,
              requireCompanyNameConfirmation := true, tempFileDeleted := true }
          else
            match record with
            | none =>
              { outcome := .noSupplierName, success := false,
                feedback := "No official supplier/company name was found from your OHS Policy (Q1R1). Please upload it first, or ensure your document clearly states your company name.",
                tempFileDeleted := true }
            | some supplierRaw =>
              if supplierRaw = "" then
                { outcome := .noSupplierName, success := false,
                  feedback := "No official supplier/company name was found from your OHS Policy (Q1R1). Please upload it first, or ensure your document clearly states your company name.",
                  tempFileDeleted := true }
              else if serverTokenMatch text supplierRaw = false then
                { outcome := .identityMismatch, success := false,
                  feedback := "Document does not clearly mention the supplier name detected from your OHS Policy: \"" ++ supplierRaw ++
                    "\". Please check or correct your company name. [You can manually set your company name if this keeps happening.]",
                  requireCompanyNameConfirmation := true,
                  detectedCompanyName := some supplierRaw,
                  identityChecked := true, tempFileDeleted := true }
              else
                { outcome := .scored, success := true, feedback := llmReply,
                  score := extractSingleScore llmReply, llmCalled := true,
                  persisted := true, identityChecked := true,
                  tempFileDeleted := true }

/-- The `/api/check-file` handler of src/unnamed/part_001 (lines 242–381).
Note the ordering: the `supplier_names` row is consulted before the text is
extracted, so the missing-name exit happens with the temp file still present
and `fs.unlinkSync` runs only after a successful extraction. -/
def part001CheckFile (hasFile : Bool) (qNum : Option Nat)
    (record : Option String) (extractRes : Except String String)
    (llmReply : String) : CheckResult :=
  if hasFile = false then
    { outcome := .noFile, success := false, feedback := "No file uploaded." }
  else
    match qNum with
    | none => { outcome := .invalidQuestion, success := false,
                feedback := "Invalid or missing question number." }
    | some q =>
      if q = 0 then
        { outcome := .invalidQuestion, success := false,
          feedback := "Invalid or missing question number." }
      else
        let official := (record.map fun s => decode (jsTrim (strCodes s))).getD ""
        if official = "" then
          { outcome := .noSupplierName, success := false,
            feedback := "No official supplier/company name found from your login/profile. Please contact support or update your profile." }
        else
          match extractRes with
          | .error e =>
            { outcome := .serverError, success := false, feedback := e }
          | .ok text =>
            if isBlankText text then
              { outcome := .unreadable, success := false,
                feedback := msgUnreadable, tempFileDeleted := true }
            else if part001HasMatch text official = false then
              { outcome := .identityMismatch, success := false,
                feedback := "Document does not clearly mention the registered company name: \"" ++ official ++
                  "\". Please re-upload a document that contains your company name as registered.",
                requireCompanyNameConfirmation := true,
                detectedCompanyName := some official,
                identityChecked := true, tempFileDeleted := true }
            else
              { outcome := .scored, success := true, feedback := llmReply,
                score := extractSingleScore llmReply, llmCalled := true,
                persisted := true, identityChecked := true,
                tempFileDeleted := true }

/-! ## The `/api/session-summary` endpoints

A stored `answers` row; only the columns the endpoint reads are modelled. -/

/-- One row of the `answers` table. -/
structure AnswerRow where
  question_number : Nat
  answer : Option String := none
  upload_feedback : Option String := none
  skip_reason : Option String := none
deriving DecidableEq

/-- JS `Math.round` on the exact value of its argument: round half toward
positive infinity.  ECMA-262 defines `Math.round(x)` mathematically on the
value of the double `x` (the closest integral value, ties toward +∞), which
for every `x` is `⌊x + 1/2⌋` computed exactly. -/
def jsRound (q : ℚ) : ℤ := ⌊q + 1 / 2⌋

/-- Round a rational to the nearest integer, ties to even — the rounding of
an IEEE-754 significand. -/
def rne (x : ℚ) : ℤ :=
  if x - ⌊x⌋ < 1 / 2 then ⌊x⌋
  else if 1 / 2 < x - ⌊x⌋ then ⌊x⌋ + 1
  else if 2 ∣ ⌊x⌋ then ⌊x⌋ else ⌊x⌋ + 1

/-- Binary64 rounding of a positive rational: scale by a power of two so the
value lies in `[2^52, 2^53)`, round to the nearest integer (ties to even),
and scale back.  This is IEEE-754 round-to-nearest-even to 53 significant
bits with an unbounded exponent: exact for the whole binary64 normal range
(no overflow or subnormals, which the quotients and products below — at most
`999/5 × 100` — can never reach). -/
def flAux (q : ℚ) : ℚ :=
  (rne (q * 2 ^ ((52 : ℤ) - Int.log 2 q)) : ℚ) / 2 ^ ((52 : ℤ) - Int.log 2 q)

/-- Binary64 rounding of a rational (sign-symmetric; `fl 0 = 0`). -/
def fl (q : ℚ) : ℚ := if q < 0 then -flAux (-q) else flAux q

/-- The accumulation loop of part_001's session summary (lines 413–422):
```js
let total = 0; let count = 0;
for (const ans of answers) {
  const scores = extractAllScores(ans.upload_feedback);
  for (const s of scores) { total += s; count++; }
}
```
-/
def sessionTotals (answers : List AnswerRow) : Nat × Nat :=
  answers.foldl
    (fun tc ans =>
      (extractAllScores ans.upload_feedback).foldl
        (fun tc2 s => (tc2.1 + s, tc2.2 + 1)) tc)
    (0, 0)

/-- part_001 lines 423–424:
```js
const maxPossible = count * 5;
const overallScore = count ? Math.round((total / maxPossible) * 100) : 0;
```
JS numbers are binary64: every arithmetic operation rounds its exact result
to 53 significant bits (`fl`).  `total` and `count` are integer-valued
accumulations, exact in binary64 below `2^53` (taken exact here; a store
cannot reach `2^53` parsed scores); the multiplication `count * 5`, the
division and the multiplication by 100 each round, and `Math.round` is then
applied to the exact value of the resulting double. -/
def part001OverallScore (answers : List AnswerRow) : ℤ :=
  if (sessionTotals answers).2 = 0 then 0
  else jsRound (fl (fl (((sessionTotals answers).1 : ℚ) /
    fl (((sessionTotals answers).2 : ℚ) * 5)) * 100))

/-- The object `JSON.parse` may yield from the reply's brace-delimited block:
only the two properties the endpoints read.  `none` for a property models it
being absent or falsy where the code tests it with `||`. -/
structure JsonReply where
  feedback : Option String := none
  score : Option Int := none
deriving DecidableEq

/-- `aiText.match(/\{[\s\S]*\}/m)`: from the first `{` (code 123) through the
last `}` (code 125), if a `}` occurs after the first `{`. -/
def braceMatch (l : List Nat) : Option (List Nat) :=
  let seg := l.dropWhile fun c => c ≠ 123
  match seg with
  | [] => none
  | _ :: _ =>
    let rev := seg.reverse.dropWhile fun c => c ≠ 125
    match rev with
    | [] => none
    | _ :: _ => some rev.reverse

/-- `braceMatch` on strings. -/
def braceMatchStr (s : String) : Option String := (braceMatch (strCodes s)).map decode

/-- The numeric fallback of src/server.js's session summary:
`aiText.match(/score\s*[:=]\s*(\d{1,3})/i)`, leftmost match. -/
def numScoreAt (l : List Nat) : Option Nat :=
  match stripCI (strCodes "score") l with
  | some r =>
    match dropWs r with
    | [] => none
    | c :: cs =>
      if c = 58 || c = 61 then
        match digits3 (dropWs cs) with
        | some (v, _) => some v
        | none => none
      else none
  | none => none

/-- Leftmost match of the loose `score: <n>` pattern. -/
def findNumScore : List Nat → Option Nat
  | [] => none
  | c :: cs =>
    match numScoreAt (c :: cs) with
    | some v => some v
    | none => findNumScore cs

/-- The response of a session-summary endpoint: the 422 no-data case, or the
prose feedback and the numeric score. -/
structure SessionResponse where
  status422 : Bool
  feedback : String
  score : Option Int
deriving DecidableEq

/-- The `/api/session-summary` handler of src/unnamed/part_001 (lines
397–463).  `aiText` is the LLM's reply to the summary prompt; `jsonParse`
models `JSON.parse` on the brace-delimited block (`none` models a parse
throw, caught by the empty `catch`).  The returned `score` is the locally
computed `overallScore`; the comment in the source reads "Still call the AI
for the summary text, but ignore its score!". -/
def part001SessionSummary (answers : List AnswerRow) (aiText : String)
    (jsonParse : String → Option JsonReply) : SessionResponse :=
  if answers.isEmpty then
    { status422 := true, feedback := "No answer data found for this email.",
      score := none }
  else
    { status422 := false,
      feedback :=
        match braceMatchStr aiText with
        | some sub =>
          match jsonParse sub with
          | some j =>
            match j.feedback with
            | some f => if f = "" then aiText else f
            | none => aiText
          | none => aiText
        | none => aiText,
      score := some (part001OverallScore answers) }

/-- The `/api/session-summary` handler of src/server.js (lines 365–417).
The returned `score` is taken from the LLM's reply: `json.score || null` when
a brace-delimited JSON block parses, else the `score\s*[:=]\s*(\d{1,3})`
fallback on the raw reply. -/
def serverSessionSummary (answers : List AnswerRow) (aiText : String)
    (jsonParse : String → Option JsonReply) : SessionResponse :=
  if answers.isEmpty then
    { status422 := true, feedback := "No answer data found for this email.",
      score := none }
  else
    match braceMatchStr aiText with
    | some sub =>
      match jsonParse sub with
      | some j =>
        { status422 := false,
          feedback :=
            match j.feedback with
            | some f => if f = "" then aiText else f
            | none => aiText,
          score :=
            match j.score with
            | some v => if v = 0 then none else some v
            | none => none }
      | none => { status422 := false, feedback := aiText, score := none }
    | none =>
      { status422 := false, feedback := aiText,
        score := (findNumScore (strCodes aiText)).map fun n => (n : Int) }

/-! ## Scan infrastructure lemmas

Progress (every match consumes at least one character), fuel-independence of
`scanAux`, and how `scanScores` steps across matches and non-matching
positions.  These support the general theorems about `extractAllScores`. -/

theorem stripCI_length {p l r : List Nat} (h : stripCI p l = some r) :
    r.length + p.length = l.length := by
  induction p generalizing l with
  | nil => simp [stripCI] at h; simp [h]
  | cons x xs ih =>
    match l with
    | [] => simp [stripCI] at h
    | c :: cs =>
      simp only [stripCI] at h
      split at h
      · have := ih h
        simp [← this]
        omega
      · exact absurd h (by simp)

theorem chomp_length (ch : Nat) (l : List Nat) : (chomp ch l).length ≤ l.length := by
  match l with
  | [] => simp [chomp]
  | c :: cs =>
    simp only [chomp]
    split <;> simp

theorem dropWhile_length (p : Nat → Bool) (l : List Nat) :
    (l.dropWhile p).length ≤ l.length := by
  induction l with
  | nil => simp
  | cons c cs ih =>
    simp only [List.dropWhile]
    split
    · exact Nat.le_trans ih (by simp)
    · simp

theorem digits3_length {l r : List Nat} {v : Nat} (h : digits3 l = some (v, r)) :
    r.length < l.length := by
  match l with
  | [] => simp [digits3] at h
  | [c] =>
    simp only [digits3] at h
    split at h
    · simp only [Option.some.injEq, Prod.mk.injEq] at h
      obtain ⟨_, h2⟩ := h
      subst h2
      simp
    · exact absurd h (by simp)
  | [c, c2] =>
    simp only [digits3] at h
    split at h
    · split at h <;>
        · simp only [Option.some.injEq, Prod.mk.injEq] at h
          obtain ⟨_, h2⟩ := h
          subst h2
          simp only [List.length_cons, List.length_nil]
          omega
    · exact absurd h (by simp)
  | c :: c2 :: c3 :: cs3 =>
    simp only [digits3] at h
    split at h
    · split at h
      · split at h <;>
          · simp only [Option.some.injEq, Prod.mk.injEq] at h
            obtain ⟨_, h2⟩ := h
            subst h2
            simp only [List.length_cons, List.length_nil]
            omega
      · simp only [Option.some.injEq, Prod.mk.injEq] at h
        obtain ⟨_, h2⟩ := h
        subst h2
        simp only [List.length_cons, List.length_nil]
        omega
    · exact absurd h (by simp)

theorem tryTail_length {l r : List Nat} {v : Nat} (h : tryTail l = some (v, r)) :
    r.length < l.length := by
  simp only [tryTail] at h
  split at h
  case h_1 v0 rest heq =>
    simp only [Option.some.injEq, Prod.mk.injEq] at h
    have h1 : r.length ≤ rest.length := by
      rw [← h.2]
      calc (chomp 41 (chomp 53 (chomp 47 rest))).length
          ≤ (chomp 53 (chomp 47 rest)).length := chomp_length ..
        _ ≤ (chomp 47 rest).length := chomp_length ..
        _ ≤ rest.length := chomp_length ..
    have h2 : rest.length < (chomp 40 l).length := digits3_length heq
    have h3 : (chomp 40 l).length ≤ l.length := chomp_length ..
    omega
  case h_2 => exact absurd h (by simp)

theorem runCont_length : ∀ {l r : List Nat} {v : Nat},
    runCont l = some (v, r) → r.length < l.length := by
  intro l
  induction l with
  | nil => intro r v h; exact absurd h (by simp [runCont, tryTail, chomp, digits3])
  | cons c cs ih =>
    intro r v h
    simp only [runCont] at h
    split at h
    · split at h
      case h_1 vr heq =>
        simp only [Option.some.injEq] at h
        subst h
        have := ih heq
        simp only [List.length_cons]
        omega
      case h_2 =>
        have := tryTail_length h
        simpa using this
    · have := tryTail_length h
      have h2 : (dropWs (c :: cs)).length ≤ (c :: cs).length := dropWhile_length ..
      omega

theorem matchBody_length {l r : List Nat} {v : Nat} (h : matchBody l = some (v, r)) :
    r.length < l.length := by
  match l with
  | [] => exact absurd h (by simp [matchBody, tryTail, chomp, digits3])
  | c :: cs =>
    simp only [matchBody] at h
    split at h
    · split at h
      case h_1 vr heq =>
        simp only [Option.some.injEq] at h
        subst h
        have := runCont_length heq
        simp only [List.length_cons]
        omega
      case h_2 => exact tryTail_length h
    · exact tryTail_length h

theorem matchAt_length {l r : List Nat} {v : Nat} (h : matchAt l = some (v, r)) :
    r.length < l.length := by
  simp only [matchAt] at h
  split at h
  case h_1 rest heq =>
    have h1 := matchBody_length h
    have h2 : (dropWs rest).length ≤ rest.length := dropWhile_length ..
    have h3 := stripCI_length heq
    have h4 : scoreMark.length = 6 := by decide
    omega
  case h_2 => exact absurd h (by simp)

theorem matchAt_none_of_mark {l : List Nat} (h : scoreMarkAt l = false) :
    matchAt l = none := by
  simp only [scoreMarkAt] at h
  simp only [matchAt]
  split
  case h_1 rest heq => rw [heq] at h; simp at h
  case h_2 => rfl

theorem scanAux_congr : ∀ (f g : Nat) (l : List Nat),
    l.length < f → l.length < g → scanAux f l = scanAux g l := by
  intro f
  induction f with
  | zero => intro g l hf; exact absurd hf (Nat.not_lt_zero _)
  | succ f ih =>
    intro g l hf hg
    match g, l with
    | 0, l => exact absurd hg (Nat.not_lt_zero _)
    | g + 1, [] => rfl
    | g + 1, c :: cs =>
      cases hm : matchAt (c :: cs) with
      | some vr =>
        obtain ⟨v, r⟩ := vr
        have hr := matchAt_length hm
        simp only [List.length_cons] at hf hg hr
        simp only [scanAux, hm]
        rw [ih g r (by omega) (by omega)]
      | none =>
        simp only [List.length_cons] at hf hg
        simp only [scanAux, hm]
        exact ih g cs (by omega) (by omega)

theorem scanScores_cons_none {c : Nat} {cs : List Nat}
    (h : matchAt (c :: cs) = none) : scanScores (c :: cs) = scanScores cs := by
  simp [scanScores, scanAux, h]

theorem scanScores_some {l r : List Nat} {v : Nat} (h : matchAt l = some (v, r)) :
    scanScores l = v :: scanScores r := by
  match l with
  | [] => exact absurd h (by simp [matchAt, stripCI, scoreMark, strCodes])
  | c :: cs =>
    have hr := matchAt_length h
    simp only [List.length_cons] at hr
    simp only [scanScores, List.length_cons, scanAux, h]
    rw [scanAux_congr (cs.length + 1) (r.length + 1) r (by omega) (by omega)]

theorem scan_skip : ∀ (p t : List Nat),
    (∀ n, n < p.length → scoreMarkAt (p.drop n ++ t) = false) →
    scanScores (p ++ t) = scanScores t := by
  intro p
  induction p with
  | nil => intro t _; rfl
  | cons c cs ih =>
    intro t h
    have h0 : scoreMarkAt ((c :: cs) ++ t) = false := by
      simpa using h 0 (by simp)
    rw [List.cons_append, scanScores_cons_none (matchAt_none_of_mark (by simpa using h0))]
    exact ih t fun n hn => by simpa using h (n + 1) (by simpa using hn)

theorem scan_none (u : List Nat)
    (h : ∀ n, n < u.length → scoreMarkAt (u.drop n) = false) :
    scanScores u = [] := by
  have := scan_skip u [] fun n hn => by simpa using h n hn
  simpa using this

/-! ## Evaluating the matcher on the two test literals of the spec -/

/-- The first literal of the multi-score test. -/
def scoreText1 : String := "Score: Robust (3/5)"

/-- The second literal of the multi-score test. -/
def scoreText2 : String := "Score: 2/5"

theorem strCodes_append (x y : String) :
    strCodes (x ++ y) = strCodes x ++ strCodes y := by
  simp [strCodes, String.data_append]

theorem matchAt_text1 (t : List Nat) :
    matchAt (strCodes scoreText1 ++ t) = some (3, t) := rfl

theorem matchAt_text2 (t : List Nat) :
    matchAt (strCodes scoreText2 ++ t) = some (2, chomp 41 t) := rfl

theorem scoreText1_length : (strCodes scoreText1).length = 19 := by decide

theorem scoreText2_length : (strCodes scoreText2).length = 10 := by decide

/-! ## Evaluating binary64 rounding at the values the claims need -/

theorem intLog_eq {q : ℚ} {E : ℤ} (h0 : 0 < q) (h1 : (2 : ℚ) ^ E ≤ q)
    (h2 : q < (2 : ℚ) ^ (E + 1)) : Int.log 2 q = E := by
  have hb : 1 < 2 := one_lt_two
  have ha : E ≤ Int.log 2 q := by
    rw [← Int.zpow_le_iff_le_log hb h0]
    exact_mod_cast h1
  have hc : Int.log 2 q < E + 1 := by
    rw [← Int.lt_zpow_iff_log_lt hb h0]
    exact_mod_cast h2
  omega

theorem rne_of_lt_half {x : ℚ} {f : ℤ} (h1 : (f : ℚ) ≤ x)
    (h2 : x < (f : ℚ) + 1 / 2) : rne x = f := by
  have hf : ⌊x⌋ = f := Int.floor_eq_iff.2 ⟨h1, by linarith⟩
  rw [rne, hf, if_pos (by linarith)]

theorem flAux_eval {q : ℚ} {E m : ℤ} (hE : Int.log 2 q = E)
    (hm : rne (q * 2 ^ ((52 : ℤ) - E)) = m) :
    flAux q = (m : ℚ) / 2 ^ ((52 : ℤ) - E) := by
  rw [flAux, hE, hm]

theorem fl_of_nonneg {q : ℚ} (h : 0 ≤ q) : fl q = flAux q := by
  rw [fl, if_neg (not_lt.2 h)]

theorem fl_ten : fl (10 : ℚ) = 10 := by
  have hE : Int.log 2 (10 : ℚ) = 3 := intLog_eq (by norm_num) (by norm_num) (by norm_num)
  have hm : rne ((10 : ℚ) * 2 ^ ((52 : ℤ) - 3)) = 5629499534213120 :=
    rne_of_lt_half (by norm_num) (by norm_num)
  rw [fl_of_nonneg (by norm_num), flAux_eval hE hm]
  norm_num

theorem fl_two_hundred : fl (200 : ℚ) = 200 := by
  have hE : Int.log 2 (200 : ℚ) = 7 := intLog_eq (by norm_num) (by norm_num) (by norm_num)
  have hm : rne ((200 : ℚ) * 2 ^ ((52 : ℤ) - 7)) = 7036874417766400 :=
    rne_of_lt_half (by norm_num) (by norm_num)
  rw [fl_of_nonneg (by norm_num), flAux_eval hE hm]
  norm_num

theorem fl_thousand : fl (1000 : ℚ) = 1000 := by
  have hE : Int.log 2 (1000 : ℚ) = 9 := intLog_eq (by norm_num) (by norm_num) (by norm_num)
  have hm : rne ((1000 : ℚ) * 2 ^ ((52 : ℤ) - 9)) = 8796093022208000 :=
    rne_of_lt_half (by norm_num) (by norm_num)
  rw [fl_of_nonneg (by norm_num), flAux_eval hE hm]
  norm_num

/-- The double closest to 201/200 = 1.005 lies a hair below it
(`1.00499999999999989…`), the classic tie-adjacent decimal. -/
theorem fl_quotient_201_200 :
    fl ((201 : ℚ) / 200) = 4526117625507348 / 4503599627370496 := by
  have hE : Int.log 2 ((201 : ℚ) / 200) = 0 :=
    intLog_eq (by norm_num) (by norm_num) (by norm_num)
  have hm : rne ((201 : ℚ) / 200 * 2 ^ ((52 : ℤ) - 0)) = 4526117625507348 :=
    rne_of_lt_half (by norm_num) (by norm_num)
  rw [fl_of_nonneg (by norm_num), flAux_eval hE hm]
  norm_num

/-- Multiplying that double by 100 and rounding again lands just below 100.5:
the product double is `100.49999999999999…` = `100.5 - 2^-46`. -/
theorem fl_product_100 :
    fl ((4526117625507348 / 4503599627370496 : ℚ) * 100) =
      7072058789855231 / 70368744177664 := by
  have hE : Int.log 2 ((4526117625507348 / 4503599627370496 : ℚ) * 100) = 6 :=
    intLog_eq (by norm_num) (by norm_num) (by norm_num)
  have hm : rne ((4526117625507348 / 4503599627370496 : ℚ) * 100 * 2 ^ ((52 : ℤ) - 6))
      = 7072058789855231 :=
    rne_of_lt_half (by norm_num) (by norm_num)
  rw [fl_of_nonneg (by norm_num), flAux_eval hE hm]
  norm_num

/-! ## Claim theorems -/

/-- C6: `extractAllScores` on any text containing `Score: Robust (3/5)` and
later `Score: 2/5`, with no other occurrence of the (case-insensitive)
`Score:` marker, returns `[3, 2]` in that order.  The text is an arbitrary
decomposition `a ++ "Score: Robust (3/5)" ++ b ++ "Score: 2/5" ++ c`; the
hypothesis says the marker occurs only at the two designated positions. -/
theorem extractAllScores_two_occurrences (a b c : String)
    (h : ∀ n, n < (strCodes (a ++ scoreText1 ++ b ++ scoreText2 ++ c)).length →
        scoreMarkAt ((strCodes (a ++ scoreText1 ++ b ++ scoreText2 ++ c)).drop n) = true →
        n = (strCodes a).length ∨
        n = (strCodes a).length + (strCodes scoreText1).length + (strCodes b).length) :
    extractAllScores (some (a ++ scoreText1 ++ b ++ scoreText2 ++ c)) = [3, 2] := by
  have l1pos := scoreText1_length
  have l2pos := scoreText2_length
  have hsplit : strCodes (a ++ scoreText1 ++ b ++ scoreText2 ++ c)
      = strCodes a ++ (strCodes scoreText1 ++ (strCodes b ++ (strCodes scoreText2 ++ strCodes c))) := by
    simp [strCodes_append, List.append_assoc]
  rw [hsplit] at h
  have h' : ∀ k,
      scoreMarkAt ((strCodes a ++ (strCodes scoreText1 ++ (strCodes b ++ (strCodes scoreText2 ++ strCodes c)))).drop k) = true →
      k = (strCodes a).length ∨
      k = (strCodes a).length + (strCodes scoreText1).length + (strCodes b).length := by
    intro k hk
    by_cases hlt : k < (strCodes a ++ (strCodes scoreText1 ++ (strCodes b ++ (strCodes scoreText2 ++ strCodes c)))).length
    · exact h k hlt hk
    · rw [List.drop_eq_nil_of_le (Nat.le_of_not_lt hlt)] at hk
      exact absurd hk (by decide)
  have stepA : scanScores (strCodes a ++ (strCodes scoreText1 ++ (strCodes b ++ (strCodes scoreText2 ++ strCodes c))))
      = scanScores (strCodes scoreText1 ++ (strCodes b ++ (strCodes scoreText2 ++ strCodes c))) := by
    apply scan_skip
    intro n hn
    cases hb : scoreMarkAt ((strCodes a).drop n ++ (strCodes scoreText1 ++ (strCodes b ++ (strCodes scoreText2 ++ strCodes c)))) with
    | false => rfl
    | true =>
      exfalso
      have hdrop : (strCodes a ++ (strCodes scoreText1 ++ (strCodes b ++ (strCodes scoreText2 ++ strCodes c)))).drop n
          = (strCodes a).drop n ++ (strCodes scoreText1 ++ (strCodes b ++ (strCodes scoreText2 ++ strCodes c))) :=
        List.drop_append_of_le_length (Nat.le_of_lt hn)
      have := h' n (by rw [hdrop]; exact hb)
      omega
  have stepB : scanScores (strCodes scoreText1 ++ (strCodes b ++ (strCodes scoreText2 ++ strCodes c)))
      = 3 :: scanScores (strCodes b ++ (strCodes scoreText2 ++ strCodes c)) :=
    scanScores_some (matchAt_text1 _)
  have stepC : scanScores (strCodes b ++ (strCodes scoreText2 ++ strCodes c))
      = scanScores (strCodes scoreText2 ++ strCodes c) := by
    apply scan_skip
    intro n hn
    cases hb : scoreMarkAt ((strCodes b).drop n ++ (strCodes scoreText2 ++ strCodes c)) with
    | false => rfl
    | true =>
      exfalso
      have hdrop : (strCodes a ++ (strCodes scoreText1 ++ (strCodes b ++ (strCodes scoreText2 ++ strCodes c)))).drop
          ((strCodes a).length + ((strCodes scoreText1).length + n))
          = (strCodes b).drop n ++ (strCodes scoreText2 ++ strCodes c) := by
        rw [List.drop_append, List.drop_append,
          List.drop_append_of_le_length (Nat.le_of_lt hn)]
      have := h' ((strCodes a).length + ((strCodes scoreText1).length + n)) (by rw [hdrop]; exact hb)
      omega
  have stepD : scanScores (strCodes scoreText2 ++ strCodes c)
      = 2 :: scanScores (chomp 41 (strCodes c)) :=
    scanScores_some (matchAt_text2 _)
  have stepE : scanScores (chomp 41 (strCodes c)) = [] := by
    have hsub : ∃ j, j ≤ 1 ∧ chomp 41 (strCodes c) = (strCodes c).drop j := by
      cases hc : strCodes c with
      | nil => exact ⟨0, by omega, by simp [chomp]⟩
      | cons c0 cr =>
        by_cases h41 : c0 = 41
        · exact ⟨1, by omega, by simp [chomp, h41]⟩
        · exact ⟨0, by omega, by simp [chomp, h41]⟩
    obtain ⟨j, hj, hchomp⟩ := hsub
    rw [hchomp]
    apply scan_none
    intro n _
    rw [List.drop_drop]
    cases hb : scoreMarkAt ((strCodes c).drop (j + n)) with
    | false => rfl
    | true =>
      exfalso
      have hdrop : (strCodes a ++ (strCodes scoreText1 ++ (strCodes b ++ (strCodes scoreText2 ++ strCodes c)))).drop
          ((strCodes a).length + ((strCodes scoreText1).length + ((strCodes b).length + ((strCodes scoreText2).length + (j + n)))))
          = (strCodes c).drop (j + n) := by
        rw [List.drop_append, List.drop_append, List.drop_append, List.drop_append]
      have := h' _ (by rw [hdrop]; exact hb)
      omega
  simp only [extractAllScores]
  rw [hsplit, stepA, stepB, stepC, stepD, stepE]

/-! ## Concrete inputs used by the claim theorems -/

/-- Prose around the two score literals, free of the `Score:` marker. -/
def w6a : String := "Assessment of supplier. "

/-- Prose between the two score literals, free of the `Score:` marker. -/
def w6b : String := " Second requirement: "

/-- Prose after the two score literals, free of the `Score:` marker. -/
def w6c : String := " End of review."

/-- An LLM reply whose band name and digit disagree. -/
def mismatchReply : String := "Score: Robust (5/5)"

/-- An LLM reply with a digit but no band name. -/
def noBandReply : String := "Score: 4/5"

/-- The document text of the spec's identity-check test, containing the
registered name in upper case. -/
def metroDoc : String := "METRO TELWORKS\nOHS Policy Document"

/-- An unrelated document about a different company. -/
def betaDoc : String :=
  "Beta Industries Annual Safety Report\nBeta Industries maintains a written OHS policy."

/-- The registered name of the spec's identity-check test. -/
def metroName : String := "Metro Telworks Pte Ltd"

/-- The registered name that must not match `betaDoc`. -/
def acmeName : String := "Acme Corp"

/-- The onboarding document of the spec's end-to-end scenario. -/
def q1Doc : String := "Our Company Name: Acme Corp\nWe have a written OHS policy..."

/-- A whitespace-only extraction result. -/
def blankDoc : String := "   "

/-- A non-blank document body for handler tests. -/
def plainDoc : String := "We have a written OHS policy."

/-- A fixed LLM reply used where its content does not matter. -/
def okReply : String := "Looks fine."

/-- A stored verdict text whose loose scan yields 0 and 100. -/
def bigScoreText : String := "Score: 100 Score: (100)"

/-- A verdict text scanning to the single score 5. -/
def fiveText : String := "Score: (5)"

/-- A verdict text scanning to the single score 6. -/
def sixText : String := "Score: (6)"

/-- An `answers` row holding `fiveText`. -/
def row5 : AnswerRow := { question_number := 2, upload_feedback := some fiveText }

/-- An `answers` row holding `sixText`. -/
def row6 : AnswerRow := { question_number := 3, upload_feedback := some sixText }

/-- A store with 40 parsed scores summing 201: thirty-nine 5s and one 6. -/
def answers201 : List AnswerRow := List.replicate 39 row5 ++ [row6]

/-- The substring named by the claim's example. -/
def bigScoreSub : String := "Score: 100"

/-- The stored `answers` row holding `bigScoreText`. -/
def bigScoreRow : AnswerRow := { question_number := 1, upload_feedback := some bigScoreText }

/-- A stored `answers` row with an ordinary verdict text. -/
def storedRow : AnswerRow := { question_number := 1, upload_feedback := some scoreText1 }

/-- An LLM session-summary reply proposing score 80 (no JSON block). -/
def replyHigh : String := "The supplier did well overall, score: 80 as a total."

/-- The same prose proposing score 20. -/
def replyLow : String := "The supplier did well overall, score: 20 as a total."

/-- A `JSON.parse` collaborator for replies with no parseable JSON block. -/
def jpNone : String → Option JsonReply := fun _ => none

/-- C6 (witness): a concrete text containing `Score: Robust (3/5)` and later
`Score: 2/5` and no other `Score:` marker scans to `[3, 2]`. -/
theorem extractAllScores_two_occurrences_witness :
    extractAllScores (some (w6a ++ scoreText1 ++ w6b ++ scoreText2 ++ w6c)) = [3, 2] :=
  extractAllScores_two_occurrences w6a w6b w6c (by decide)

/-- C2 (counterexample): on `Score: Robust (5/5)` the single-score extraction
returns the digit 5, not the canonical weight 3 of the band name Robust — the
digit, not the band name, is authoritative in the code. -/
theorem singleScore_digit_beats_band :
    extractSingleScore mismatchReply = some 5 ∧ bandWeight Band.robust = 3 ∧
    extractSingleScore mismatchReply ≠ some (bandWeight Band.robust) := by
  refine ⟨by decide, rfl, by decide⟩

/-- C2 (amended): for every reply in the canonical format
`Score: <BandName> (<digit>/5)` the extracted score is the digit, whatever the
band name (mismatched pairs yield the digit, never the band weight and never
two scores); a reply whose `Score:` line carries a digit but no band name does
not match at all, so no score is extracted. -/
theorem singleScore_digit_authoritative (b : Band) (d : Nat) (hd : d ≤ 9) :
    extractSingleScore (singleReply b d) = some d ∧
    extractSingleScore noBandReply = none := by
  refine ⟨?_, by decide⟩
  cases b <;> (interval_cases d <;> decide)

/-- C2 (witness): the amended claim at band Warning and digit 7. -/
theorem singleScore_digit_authoritative_witness :
    extractSingleScore (singleReply Band.warning 7) = some 7 ∧
    extractSingleScore noBandReply = none :=
  singleScore_digit_authoritative Band.warning 7 (by decide)

/-- The accumulating inner loop sums the scores and counts them. -/
theorem foldl_scores (l : List Nat) (t c : Nat) :
    l.foldl (fun tc2 s => (tc2.1 + s, tc2.2 + 1)) (t, c) = (t + l.sum, c + l.length) := by
  induction l generalizing t c with
  | nil => simp
  | cons x xs ih => simp [ih, Prod.ext_iff]; omega

/-- `sessionTotals` is the sum and count of all scores parsed from all stored
verdict texts, in order. -/
theorem sessionTotals_eq (answers : List AnswerRow) :
    sessionTotals answers =
      (((answers.map fun ansRow => extractAllScores ansRow.upload_feedback).flatten).sum,
       ((answers.map fun ansRow => extractAllScores ansRow.upload_feedback).flatten).length) := by
  suffices hgen : ∀ t c : Nat,
      answers.foldl
        (fun tc ansRow =>
          (extractAllScores ansRow.upload_feedback).foldl
            (fun tc2 s => (tc2.1 + s, tc2.2 + 1)) tc) (t, c)
      = (t + ((answers.map fun ansRow => extractAllScores ansRow.upload_feedback).flatten).sum,
         c + ((answers.map fun ansRow => extractAllScores ansRow.upload_feedback).flatten).length) by
    simpa [sessionTotals] using hgen 0 0
  induction answers with
  | nil => intro t c; simp
  | cons x xs ih =>
    intro t c
    simp only [List.foldl_cons, List.map_cons, List.flatten_cons]
    rw [foldl_scores, ih]
    simp [Prod.ext_iff]
    omega

/-- C3 (amended): `summarizeSession` computes `totalWeight` as the exact sum
of all scores parsed from all stored verdict texts and the count of parsed
scores; a count of zero yields `overallPercent = 0`, not an error; otherwise
`overallPercent` is `Math.round` of the binary64 evaluation of
`(totalWeight / (count × 5)) × 100` — each operation rounded to the nearest
double — which is not always the exact `round(100 × totalWeight /
maxPossible)` (see the 201/40 counterexample). -/
theorem sessionAggregation_formula (answers : List AnswerRow) :
    sessionTotals answers =
      (((answers.map fun ansRow => extractAllScores ansRow.upload_feedback).flatten).sum,
       ((answers.map fun ansRow => extractAllScores ansRow.upload_feedback).flatten).length) ∧
    part001OverallScore answers =
      (if ((answers.map fun ansRow => extractAllScores ansRow.upload_feedback).flatten).length = 0
       then 0
       else jsRound
         (fl (fl ((((answers.map fun ansRow => extractAllScores ansRow.upload_feedback).flatten).sum : ℚ) /
             fl ((((answers.map fun ansRow => extractAllScores ansRow.upload_feedback).flatten).length : ℚ) * 5)) * 100))) := by
  refine ⟨sessionTotals_eq answers, ?_⟩
  rw [part001OverallScore, sessionTotals_eq answers]

/-- C3 (counterexample): the program's binary64 arithmetic does not always
realize `round(100 × totalWeight / maxPossible)`.  With 40 parsed scores
summing 201 (totalWeight 201, maxPossible 200), the code computes
`(201/200)*100` in doubles as `100.49999999999999…` and `Math.round` returns
100, while the exact formula gives `round(100.5) = 101`. -/
theorem roundFormula_float_counterexample :
    sessionTotals answers201 = (201, 40) ∧
    part001OverallScore answers201 = 100 ∧
    jsRound ((100 * 201 : ℚ) / (40 * 5)) = 101 := by
  have ht : sessionTotals answers201 = (201, 40) := by decide
  refine ⟨ht, ?_, by norm_num [jsRound]⟩
  rw [part001OverallScore, ht]
  have h200 : ((((201, 40) : Nat × Nat).2 : ℚ)) * 5 = 200 := by norm_num
  rw [if_neg (by norm_num), h200, fl_two_hundred]
  have hq : ((((201, 40) : Nat × Nat).1 : ℚ)) / 200 = (201 : ℚ) / 200 := by norm_num
  rw [hq, fl_quotient_201_200, fl_product_100]
  norm_num [jsRound]

/-- The candidate list of part_001's identity check contains the registered
name itself, so the normalized comparison always finds a match. -/
theorem part001HasMatch_true (text official : String) :
    part001HasMatch text official = true := by
  simp [part001HasMatch, List.any_append]

/-- C4: in part_001's exact-normalized identity-check variant the registered
name is appended to the candidate-line list and compared against its own
normalization, so the check reports a match for every document text and every
registered name, and the identity-mismatch rejection of the handler is
unreachable for any input. -/
theorem part001_identityMismatch_unreachable :
    (∀ text official : String, part001HasMatch text official = true) ∧
    (∀ (hasFile : Bool) (qNum : Option Nat) (record : Option String)
        (extractRes : Except String String) (llmReply : String),
      (part001CheckFile hasFile qNum record extractRes llmReply).outcome ≠
        Outcome.identityMismatch) := by
  refine ⟨part001HasMatch_true, ?_⟩
  intro hasFile qNum record extractRes llmReply
  simp only [part001CheckFile, part001HasMatch_true]
  split
  · simp
  · split
    · simp
    · split
      · simp
      · split
        · simp
        · split
          · simp
          · split
            · simp
            · simp

/-- C5 (counterexample): part_001's exact-normalized identity check reports a
match for registered name `Acme Corp` against an unrelated document about
Beta Industries — the claim's required rejection does not happen under that
strategy. -/
theorem part001_accepts_unrelated : part001HasMatch betaDoc acmeName = true := by decide

/-- C5 (amended): the token-overlap strategy of src/server.js accepts
`Metro Telworks Pte Ltd` against a document containing `METRO TELWORKS` and
rejects `Acme Corp` against the unrelated Beta Industries document; part_001's
exact-normalized variant also accepts the Metro pair, but — because the
registered name is appended to its own candidate list — it likewise reports a
match for the Acme/Beta pair, so it rejects nothing. -/
theorem identityCheck_examples :
    serverTokenMatch metroDoc metroName = true ∧
    serverTokenMatch betaDoc acmeName = false ∧
    part001HasMatch metroDoc metroName = true ∧
    part001HasMatch betaDoc acmeName = true := by decide

/-- C7: uploading the onboarding document to question 1 auto-extracts the
company name `Acme Corp` and returns a confirmation request, without invoking
the LLM, without an identity check, and without persisting anything (the
supplier-name record and the LLM reply are arbitrary and unused). -/
theorem q1_autoExtracts_name (record : Option String) (llmReply : String) :
    serverCheckFile true (some 1) (Except.ok q1Doc) record llmReply =
      { outcome := Outcome.nameConfirmation, success := true,
        feedback := "Detected company name: \"Acme Corp\". Please confirm or correct this.",
        detectedCompanyName := some acmeName,
        requireCompanyNameConfirmation := true, score := none,
        llmCalled := false, persisted := false, identityChecked := false,
        tempFileDeleted := true } := rfl

/-- C8: when the extracted text is empty or whitespace-only, both handler
variants terminate in the unreadable rejection with the user-visible message,
with no identity check, no LLM call and nothing persisted (all effect fields
of the result are false). -/
theorem unreadable_rejection (n : Nat) (hn : n ≠ 0) (record : Option String)
    (s llmReply text : String) (hs : decode (jsTrim (strCodes s)) ≠ "")
    (hblank : isBlankText text = true) :
    serverCheckFile true (some n) (Except.ok text) record llmReply =
      { outcome := Outcome.unreadable, success := false, feedback := msgUnreadable,
        tempFileDeleted := true } ∧
    part001CheckFile true (some n) (some s) (Except.ok text) llmReply =
      { outcome := Outcome.unreadable, success := false, feedback := msgUnreadable,
        tempFileDeleted := true } := by
  constructor
  · simp [serverCheckFile, hn, hblank]
  · simp [part001CheckFile, hn, hs, hblank]

/-- C8 (witness): the unreadable rejection at question 2 with a whitespace-only
document, for both variants. -/
theorem unreadable_rejection_witness :
    serverCheckFile true (some 2) (Except.ok blankDoc) (some acmeName) okReply =
      { outcome := Outcome.unreadable, success := false, feedback := msgUnreadable,
        tempFileDeleted := true } ∧
    part001CheckFile true (some 2) (some acmeName) (Except.ok blankDoc) okReply =
      { outcome := Outcome.unreadable, success := false, feedback := msgUnreadable,
        tempFileDeleted := true } :=
  unreadable_rejection 2 (by decide) (some acmeName) acmeName okReply blankDoc
    (by decide) (by decide)

/-- C9: exit paths on which the uploaded temp file is not removed, with a
file present: src/server.js returns for an invalid question number before
`fs.unlinkSync`; it catches a text-extraction throw with no cleanup; and
part_001 returns for a missing supplier-name record before extraction and
unlink.  On each, `tempFileDeleted` is false. -/
theorem tempFile_leaks :
    (serverCheckFile true none (Except.ok plainDoc) (some acmeName) okReply).tempFileDeleted
      = false ∧
    (serverCheckFile true (some 2) (Except.error okReply) (some acmeName) okReply).tempFileDeleted
      = false ∧
    (part001CheckFile true (some 2) none (Except.ok plainDoc) okReply).tempFileDeleted = false ∧
    (part001CheckFile true (some 2) none (Except.ok plainDoc) okReply).outcome =
      Outcome.noSupplierName := by
  refine ⟨rfl, rfl, rfl, rfl⟩

/-- C10: `extractAllScores` does not clamp captured numbers to the 1–5 band
range, so `summarizeSession`'s `overallPercent` is not bounded by 100: for a
stored verdict text containing `Score: 100` (followed by `Score: (100)`, whose
parenthesised number is captured whole), `totalWeight` is 100 with 2 parsed
scores (exceeding count × 5 = 10) and the returned `overallPercent` is 1000. -/
theorem overallPercent_exceeds_100 :
    subMatch (strCodes bigScoreSub) (strCodes bigScoreText) = true ∧
    extractAllScores (some bigScoreText) = [0, 100] ∧
    sessionTotals [bigScoreRow] = (100, 2) ∧
    part001OverallScore [bigScoreRow] = 1000 ∧ (100 : ℤ) < 1000 := by
  have h : sessionTotals [bigScoreRow] = (100, 2) := by decide
  refine ⟨by decide, by decide, h, ?_, by decide⟩
  rw [part001OverallScore, h]
  norm_num [fl_ten, fl_thousand, jsRound]

/-- C1 (counterexample): src/server.js's session summary returns the score the
LLM proposes — two runs over the same stored verdicts whose summary replies
propose 80 and 20 return different scores. -/
theorem serverSummary_score_from_llm :
    (serverSessionSummary [storedRow] replyHigh jpNone).score ≠
      (serverSessionSummary [storedRow] replyLow jpNone).score := by decide

/-- C1 (amended): in part_001's session summary the returned `score` is `none`
for no stored answers and otherwise exactly the locally computed
`overallScore`, so it depends only on the stored verdicts: two runs with
arbitrarily different LLM replies and JSON-parse outcomes return the same
score (the prose feedback may differ; the per-question breakdown block of the
source is dead code after the response is sent).  The server.js variant's
score, by contrast, is taken from the LLM reply. -/
theorem part001Summary_score_deterministic (answers : List AnswerRow)
    (t1 t2 : String) (jp1 jp2 : String → Option JsonReply) :
    (part001SessionSummary answers t1 jp1).score =
      (part001SessionSummary answers t2 jp2).score ∧
    (part001SessionSummary answers t1 jp1).score =
      (if answers.isEmpty then none else some (part001OverallScore answers)) := by
  constructor
  · simp only [part001SessionSummary]
    split <;> simp
  · simp only [part001SessionSummary]
    split <;> simp

end VendorIQ
